import Mathlib

/-!
Shallow embedding of `src/cutadapt/__main__.py` (cutadapt's command-line
front end): the parsed-argument record, the pipeline-construction helpers
and the error dispatch of `main`, together with theorems checking the
natural-language specification against them.

Python values are translated as follows: optional string options become
`Option String` (with Python truthiness made explicit), lists stay lists,
Python `int` is `Int`, raised exceptions become `Except String`.
-/

namespace Cutadapt

/-- Python truthiness of an optional string option: `None` and the empty
string are falsy, every other string is truthy. -/
def truthy : Option String → Bool
  | none => false
  | some s => !s.isEmpty

/-- Command-line arguments after `argparse` has run, with the defaults of
`get_argument_parser`. `adapters`/`adapters2` hold the `(kind, spec)` pairs
produced by the `-a  -g  -b` and `-A  -G  -B` type converters. The source's
`prefix`/`suffix` fields are named `pfx`/`sfx` here. -/
structure Args where
  adapters : List (String × String) := []
  adapters2 : List (String × String) := []
  cut : List Int := []
  cut2 : List Int := []
  output : Option String := none
  paired_output : Option String := none
  untrimmed_output : Option String := none
  untrimmed_paired_output : Option String := none
  too_short_output : Option String := none
  too_short_paired_output : Option String := none
  too_long_output : Option String := none
  too_long_paired_output : Option String := none
  rest_file : Option String := none
  info_file : Option String := none
  wildcard_file : Option String := none
  minimum_length : Option String := none
  maximum_length : Option String := none
  pair_filter : Option String := none
  quality_cutoff : Option String := none
  quality_cutoff2 : Option String := none
  rename : Option String := none
  report : Option String := none
  interleaved : Bool := false
  discard_trimmed : Bool := false
  discard_untrimmed : Bool := false
  discard_casava : Bool := false
  pair_adapters : Bool := false
  reverse_complement : Bool := false
  fasta : Bool := false
  quiet : Bool := false
  cores : Int := 1
  times : Int := 1
  pfx : String := ""
  sfx : String := ""
  deriving DecidableEq, Repr

/-- The record of argparse defaults (every field at its declared default). -/
def defaultArgs : Args := {}

/-- Translation of `estimate_compression_threads`:
`return max(0, min(cores, 4))`. -/
def estimate_compression_threads (cores : Int) : Int :=
  max 0 (min cores 4)

/-- C5: for every non-negative `cores` value (negative `--cores` values are
rejected by `main` before this function is reached), the number of
compression worker threads equals `min(cores, 4)`, and it is never negative
for any `cores` value at all. -/
theorem estimate_compression_threads_spec :
    (∀ cores : Int, 0 ≤ cores →
      estimate_compression_threads cores = min cores 4) ∧
    (∀ cores : Int, 0 ≤ estimate_compression_threads cores) := by
  constructor
  · intro cores h
    simp only [estimate_compression_threads]
    omega
  · intro cores
    simp only [estimate_compression_threads]
    omega

/-- Witness for C5: at `cores = 6` the hypothesis `0 ≤ 6` holds and the
thread count evaluates to `min 6 4 = 4`. -/
theorem estimate_compression_threads_witness :
    estimate_compression_threads 6 = min 6 4 ∧ estimate_compression_threads 6 = 4 :=
  ⟨estimate_compression_threads_spec.1 6 (by decide), by decide⟩

/-- Translation of the per-list checks of `add_unconditional_cutters` for a
single `-u`/`-U` list: an empty list is skipped, more than two entries is an
error, and two entries whose product is positive is an error. -/
def checkCutList (cut_arg : List Int) : Except String Unit :=
  if cut_arg = [] then .ok ()
  else if cut_arg.length > 2 then
    .error "You cannot remove bases from more than two ends."
  else
    match cut_arg with
    | [a, b] =>
      if a * b > 0 then .error "You cannot remove bases from the same end twice."
      else .ok ()
    | _ => .ok ()

/-- Translation of `add_unconditional_cutters`: the loop checks the `-u`
list (R1) first, then the `-U` list (R2); the first failing check raises. -/
def add_unconditional_cutters (cut1 cut2 : List Int) : Except String Unit :=
  match checkCutList cut1 with
  | .error e => .error e
  | .ok _ => checkCutList cut2

/-- Two cut values of strictly opposite signs, as C3 words it. -/
def oppositeSigns (a b : Int) : Prop :=
  (0 < a ∧ b < 0) ∨ (a < 0 ∧ 0 < b)

theorem checkCutList_ok_iff (l : List Int) :
    checkCutList l = .ok () ↔ (l.length ≤ 2 ∧ ∀ a b, l = [a, b] → a * b ≤ 0) := by
  match l with
  | [] =>
    constructor
    · intro _
      exact ⟨by simp, by intro a b h; exact absurd h (by simp)⟩
    · intro _
      rfl
  | [a] =>
    constructor
    · intro _
      exact ⟨by simp, by intro x y h; exact absurd h (by simp)⟩
    · intro _
      rfl
  | [a, b] =>
    have hde : checkCutList [a, b] =
        if a * b > 0 then Except.error "You cannot remove bases from the same end twice."
        else Except.ok () := by
      simp [checkCutList]
    rw [hde]
    constructor
    · intro h
      refine ⟨by simp, ?_⟩
      rintro x y hxy
      injection hxy with h1 h2
      injection h2 with h2 _
      subst h1
      subst h2
      by_contra hab
      rw [if_pos (by omega)] at h
      exact Except.noConfusion h
    · rintro ⟨-, hprod⟩
      rw [if_neg (by have := hprod a b rfl; omega)]
  | a :: b :: c :: rest =>
    have hde : checkCutList (a :: b :: c :: rest) =
        Except.error "You cannot remove bases from more than two ends." := by
      simp [checkCutList]
    rw [hde]
    constructor
    · intro h
      exact Except.noConfusion h
    · rintro ⟨hl, -⟩
      exact absurd hl (by simp)

/-- C3 (amended): construction succeeds for a cut-value pair of lists iff
each list has at most two entries and, when a list has exactly two entries,
their product is not positive (opposite signs, or at least one zero). -/
theorem add_unconditional_cutters_ok_iff (cut1 cut2 : List Int) :
    add_unconditional_cutters cut1 cut2 = .ok () ↔
      ((cut1.length ≤ 2 ∧ ∀ a b, cut1 = [a, b] → a * b ≤ 0) ∧
       (cut2.length ≤ 2 ∧ ∀ a b, cut2 = [a, b] → a * b ≤ 0)) := by
  rw [← checkCutList_ok_iff, ← checkCutList_ok_iff]
  unfold add_unconditional_cutters
  cases h1 : checkCutList cut1 with
  | error e =>
    constructor
    · intro h
      exact Except.noConfusion h
    · rintro ⟨ho, -⟩
      exact Except.noConfusion ho
  | ok u =>
    cases u
    constructor
    · intro h
      exact ⟨rfl, h⟩
    · rintro ⟨-, h2⟩
      exact h2

/-- C3 counterexample: with the single list `[0, 5]` (for example
`-u 0 -u 5`), construction succeeds although `0` and `5` do not have
opposite signs, refuting the claim that two entries must have opposite
signs for construction to succeed. -/
theorem add_unconditional_cutters_zero_cut :
    add_unconditional_cutters [0, 5] [] = .ok () ∧ ¬ oppositeSigns 0 5 := by
  constructor
  · rfl
  · intro h
    rcases h with ⟨h1, _⟩ | ⟨h1, _⟩ <;> exact absurd h1 (by decide)

/-- Translation of the override condition in `pipeline_from_parsed_args`
(source line 668): the pipeline is a `PairedEndPipeline` exactly when
`paired` holds, `adapters` and `adapters2` are the parsed adapter lists,
and the flags are read with Python truthiness. The function returns whether
`pipeline.override_untrimmed_pair_filter` is set to `True`. -/
def override_untrimmed_pair_filter (paired : Bool)
    (adapters adapters2 : List String) (a : Args) : Bool :=
  paired && (adapters2.isEmpty || adapters.isEmpty) &&
    (a.discard_untrimmed || truthy a.untrimmed_output ||
      truthy a.untrimmed_paired_output)

/-- Adapters given for exactly one of the two reads, as C1 words it. -/
def adaptersOnOneSideOnly (adapters adapters2 : List String) : Prop :=
  (adapters ≠ [] ∧ adapters2 = []) ∨ (adapters = [] ∧ adapters2 ≠ [])

/-- C1 (amended): the untrimmed pair-filter override is set iff the mode is
paired, at least one of the two adapter lists is empty (also when both
are), and one of `--discard-untrimmed`, `--untrimmed-output`,
`--untrimmed-paired-output` was requested. -/
theorem override_untrimmed_pair_filter_iff (paired : Bool)
    (adapters adapters2 : List String) (a : Args) :
    override_untrimmed_pair_filter paired adapters adapters2 a = true ↔
      (paired = true ∧ (adapters = [] ∨ adapters2 = []) ∧
        (a.discard_untrimmed = true ∨ truthy a.untrimmed_output = true ∨
          truthy a.untrimmed_paired_output = true)) := by
  simp only [override_untrimmed_pair_filter, Bool.and_eq_true, Bool.or_eq_true,
    List.isEmpty_iff]
  tauto

/-- C1 counterexample: in paired-end mode with `--discard-untrimmed` and no
adapters on either side, the code sets the override although adapters were
not given for exactly one of the two reads; the claim, which reserves the
override for that situation, is refuted. -/
theorem override_untrimmed_pair_filter_both_empty :
    override_untrimmed_pair_filter true [] []
        { defaultArgs with discard_untrimmed := true } = true ∧
      ¬ adaptersOnOneSideOnly [] [] := by
  constructor
  · rfl
  · rintro (⟨h, -⟩ | ⟨-, h⟩) <;> exact h rfl

theorem list_isEmpty_false_iff {α : Type} (l : List α) :
    l.isEmpty = false ↔ l ≠ [] := by
  cases l <;> simp

/-- Translation of `determine_paired`: paired-end mode is enabled by the
truthiness of any of the nine listed options. -/
def determine_paired (a : Args) : Bool :=
  truthy a.paired_output || a.interleaved || !a.adapters2.isEmpty ||
    !a.cut2.isEmpty || truthy a.pair_filter ||
    truthy a.untrimmed_paired_output || truthy a.too_short_paired_output ||
    truthy a.too_long_paired_output || truthy a.quality_cutoff2

/-- One of the nine paired-end options was supplied on the command line, as
C8 words it: a string-valued option is supplied when it is present (even as
an empty string), a list option when the list is non-empty, a flag when it
is set. -/
def pairedOptionSupplied (a : Args) : Prop :=
  a.paired_output.isSome = true ∨ a.interleaved = true ∨
    a.adapters2 ≠ [] ∨ a.cut2 ≠ [] ∨ a.pair_filter.isSome = true ∨
    a.untrimmed_paired_output.isSome = true ∨
    a.too_short_paired_output.isSome = true ∨
    a.too_long_paired_output.isSome = true ∨
    a.quality_cutoff2.isSome = true

/-- C8 (amended): paired-end mode is enabled iff one of the nine options is
supplied with a truthy value (for the string-valued ones, a non-empty
string), and `determine_paired` depends on no other field of the parsed
arguments. -/
theorem determine_paired_spec :
    (∀ a : Args, determine_paired a = true ↔
      (truthy a.paired_output = true ∨ a.interleaved = true ∨
        a.adapters2 ≠ [] ∨ a.cut2 ≠ [] ∨ truthy a.pair_filter = true ∨
        truthy a.untrimmed_paired_output = true ∨
        truthy a.too_short_paired_output = true ∨
        truthy a.too_long_paired_output = true ∨
        truthy a.quality_cutoff2 = true)) ∧
    (∀ a b : Args, a.paired_output = b.paired_output →
      a.interleaved = b.interleaved → a.adapters2 = b.adapters2 →
      a.cut2 = b.cut2 → a.pair_filter = b.pair_filter →
      a.untrimmed_paired_output = b.untrimmed_paired_output →
      a.too_short_paired_output = b.too_short_paired_output →
      a.too_long_paired_output = b.too_long_paired_output →
      a.quality_cutoff2 = b.quality_cutoff2 →
      determine_paired a = determine_paired b) := by
  constructor
  · intro a
    simp only [determine_paired, Bool.or_eq_true, Bool.not_eq_true',
      list_isEmpty_false_iff]
    tauto
  · intro a b h1 h2 h3 h4 h5 h6 h7 h8 h9
    simp only [determine_paired, h1, h2, h3, h4, h5, h6, h7, h8, h9]

/-- Witness for C8's theorem: two argument records agreeing on the nine
fields (one with `-A ACGT`, the other additionally with `--fasta`) get the
same verdict, and the verdict is `true` by the iff. -/
theorem determine_paired_witness :
    determine_paired { defaultArgs with adapters2 := [("back", "ACGT")] } =
      determine_paired
        { defaultArgs with adapters2 := [("back", "ACGT")], fasta := true } ∧
    determine_paired { defaultArgs with adapters2 := [("back", "ACGT")] } = true := by
  constructor
  · exact determine_paired_spec.2
      { defaultArgs with adapters2 := [("back", "ACGT")] }
      { defaultArgs with adapters2 := [("back", "ACGT")], fasta := true }
      rfl rfl rfl rfl rfl rfl rfl rfl rfl
  · exact (determine_paired_spec.1
      { defaultArgs with adapters2 := [("back", "ACGT")] }).mpr
      (by right; right; left; simp)

/-- C8 counterexample: supplying `-p` with an empty string (`-p ""`) is
supplying one of the nine options, yet paired-end mode is not enabled,
because Python truthiness treats the empty string as false; the claim's
"if and only if at least one of the options was supplied" is refuted. -/
theorem determine_paired_empty_string :
    pairedOptionSupplied { defaultArgs with paired_output := some "" } ∧
      determine_paired { defaultArgs with paired_output := some "" } = false := by
  constructor
  · left
    rfl
  · rfl

/-- Python's substring test `needle in hay` on the underlying characters. -/
def pyInAux : List Char → List Char → Bool
  | needle, [] => needle.isEmpty
  | needle, c :: rest => needle.isPrefixOf (c :: rest) || pyInAux needle rest

/-- Python's `needle in hay` for strings. -/
def pyIn (needle hay : String) : Bool :=
  pyInAux needle.toList hay.toList

/-- The two demultiplexing modes; `determine_demultiplex_mode` returns
`none` for plain (non-demultiplexing) output. -/
inductive DemuxMode where
  | normal
  | combinatorial
  deriving DecidableEq, Repr

/-- Translation of `determine_demultiplex_mode`. -/
def determine_demultiplex_mode (output paired_output : Option String) :
    Except String (Option DemuxMode) :=
  let demultiplex := output.isSome && pyIn "{name}" (output.getD "")
  if paired_output.isSome && (demultiplex != pyIn "{name}" (paired_output.getD "")) then
    .error "When demultiplexing paired-end data, \x22{name}\x22 must appear in both output file names (-o and -p)"
  else
    let demultiplex_combinatorial :=
      output.isSome && paired_output.isSome &&
        pyIn "{name1}" (output.getD "") && pyIn "{name2}" (output.getD "") &&
        pyIn "{name1}" (paired_output.getD "") && pyIn "{name2}" (paired_output.getD "")
    if demultiplex && demultiplex_combinatorial then
      .error "You cannot combine {name} with {name1} and {name2}"
    else if demultiplex then .ok (some .normal)
    else if demultiplex_combinatorial then .ok (some .combinatorial)
    else .ok none

/-- Translation of the keys of the loop in `open_combinatorial_out`:
`itertools.product(adapter_names, adapter_names2)` followed, unless
`--discard-untrimmed` is set, by `(None, None)`, the `(None, name2)` pairs
and the `(name1, None)` pairs. One R1 and one R2 file is opened per key. -/
def open_combinatorial_out_keys (adapter_names adapter_names2 : List String)
    (discard_untrimmed : Bool) : List (Option String × Option String) :=
  let extra : List (Option String × Option String) :=
    if discard_untrimmed then []
    else (none, none) :: (adapter_names2.map fun n2 => (none, some n2)) ++
      (adapter_names.map fun n1 => (some n1, none))
  (adapter_names.flatMap fun n1 => adapter_names2.map fun n2 =>
    ((some n1 : Option String), (some n2 : Option String))) ++ extra

/-- Translation of the file-name substitution of `open_combinatorial_out`:
a missing side is written as the literal name `unknown`. -/
def open_combinatorial_out_paths (output paired_output : String)
    (key : Option String × Option String) : String × String :=
  let fname1 := key.1.getD "unknown"
  let fname2 := key.2.getD "unknown"
  (((output.replace "{name1}" fname1).replace "{name2}" fname2),
   ((paired_output.replace "{name1}" fname1).replace "{name2}" fname2))

/-- C4 (amended): combinatorial demultiplexing is selected iff `-o` and
`-p` are both given, each contains both of the placeholders `{name1}` and
`{name2}`, and neither contains `{name}` (that combination is a
construction error instead); and in that mode the set of opened file-pair
keys is exactly all pairs over the adapter names, each side extended by the
missing-match key `none` (written `unknown` in file names) unless
`--discard-untrimmed` is given. -/
theorem demultiplex_combinatorial_spec :
    (∀ output paired_output : Option String,
      determine_demultiplex_mode output paired_output = .ok (some .combinatorial) ↔
        (∃ o p, output = some o ∧ paired_output = some p ∧
          pyIn "{name1}" o = true ∧ pyIn "{name2}" o = true ∧
          pyIn "{name1}" p = true ∧ pyIn "{name2}" p = true ∧
          pyIn "{name}" o = false ∧ pyIn "{name}" p = false)) ∧
    (∀ (names names2 : List String) (du : Bool) (k1 k2 : Option String),
      (k1, k2) ∈ open_combinatorial_out_keys names names2 du ↔
        ((∀ n, k1 = some n → n ∈ names) ∧ (∀ n, k2 = some n → n ∈ names2) ∧
          (du = true → k1.isSome = true ∧ k2.isSome = true))) := by
  constructor
  · intro output paired_output
    match output, paired_output with
    | none, none =>
      simp [determine_demultiplex_mode]
    | none, some p =>
      by_cases hp : pyIn "{name}" p = true <;>
        simp [determine_demultiplex_mode, hp]
    | some o, none =>
      by_cases hn : pyIn "{name}" o = true <;>
        simp [determine_demultiplex_mode, hn]
    | some o, some p =>
      by_cases h1 : pyIn "{name1}" o = true <;>
        by_cases h2 : pyIn "{name2}" o = true <;>
        by_cases h3 : pyIn "{name1}" p = true <;>
        by_cases h4 : pyIn "{name2}" p = true <;>
        by_cases h5 : pyIn "{name}" o = true <;>
        by_cases h6 : pyIn "{name}" p = true <;>
        simp [determine_demultiplex_mode, h1, h2, h3, h4, h5, h6]
  · intro names names2 du k1 k2
    cases du <;> cases k1 <;> cases k2 <;>
      simp [open_combinatorial_out_keys, List.mem_flatMap, List.mem_map]

/-- C4 counterexample: with `-o` and `-p` both set to
`{name}{name1}{name2}`, both templates contain `{name1}` and `{name2}`,
yet combinatorial mode is not selected: construction raises the
"cannot combine" error; the claim's "if and only if" is refuted. -/
theorem demultiplex_combinatorial_name_conflict :
    pyIn "{name1}" "{name}{name1}{name2}" = true ∧
    pyIn "{name2}" "{name}{name1}{name2}" = true ∧
    determine_demultiplex_mode (some "{name}{name1}{name2}")
        (some "{name}{name1}{name2}") =
      .error "You cannot combine {name} with {name1} and {name2}" :=
  ⟨rfl, rfl, rfl⟩

/-- Tags for the streams `open_output_files` opens, in source order. The
`outFile`, `out2File`, `demuxOut`, `demuxOut2`, `combOut` and `combOut2`
tags are the destinations of trimmed reads. -/
inductive FileTag where
  | restFile
  | infoFile
  | wildcardFile
  | tooShort
  | tooShort2
  | tooLong
  | tooLong2
  | untrimmedFile
  | untrimmed2File
  | outFile
  | out2File
  | demuxOut
  | demuxOut2
  | combOut
  | combOut2
  deriving DecidableEq, Repr

/-- Streams opened by `FileOpener.xopen_or_none`: one stream when the path
is given. -/
def xopen_or_none (path : Option String) (tag : FileTag) : List FileTag :=
  if path.isSome then [tag] else []

/-- Streams opened by `FileOpener.xopen_pair`: one per path given. -/
def xopen_pair (path1 path2 : Option String) (tag1 tag2 : FileTag) :
    List FileTag :=
  xopen_or_none path1 tag1 ++ xopen_or_none path2 tag2

/-- Translation of `open_output_files`, tracking the streams opened before
each possible `CommandLineError`: the trace of opened streams in source
order, and the error if one is raised. The file objects themselves are
outside the model; only which streams are opened, and in which order
relative to the error checks, is kept. -/
def open_output_files (a : Args) (adapter_names adapter_names2 : List String) :
    List FileTag × Option String :=
  let side := xopen_or_none a.rest_file .restFile ++
    xopen_or_none a.info_file .infoFile ++
    xopen_or_none a.wildcard_file .wildcardFile
  let side := side ++ (if a.minimum_length.isSome then
    xopen_pair a.too_short_output a.too_short_paired_output .tooShort .tooShort2
    else [])
  let side := side ++ (if a.maximum_length.isSome then
    xopen_pair a.too_long_output a.too_long_paired_output .tooLong .tooLong2
    else [])
  if a.discard_trimmed.toNat + a.discard_untrimmed.toNat +
      (a.untrimmed_output.isSome).toNat > 1 then
    (side, some "Only one of the --discard-trimmed, --discard-untrimmed and --untrimmed-output options can be used at the same time.")
  else
    match determine_demultiplex_mode a.output a.paired_output with
    | .error e => (side, some e)
    | .ok mode =>
      if mode.isSome && a.discard_trimmed then
        (side, some "Do not use --discard-trimmed when demultiplexing.")
      else
        match mode with
        | some .normal =>
          let demux := adapter_names.flatMap fun _ =>
            [FileTag.demuxOut] ++
              (if a.paired_output.isSome then [FileTag.demuxOut2] else [])
          let untr := if a.discard_untrimmed then []
            else [FileTag.untrimmedFile] ++
              (if a.paired_output.isSome then [FileTag.untrimmed2File] else [])
          (side ++ demux ++ untr, none)
        | some .combinatorial =>
          let comb := (open_combinatorial_out_keys adapter_names adapter_names2
            a.discard_untrimmed).flatMap fun _ => [FileTag.combOut, FileTag.combOut2]
          if truthy a.untrimmed_output || truthy a.untrimmed_paired_output then
            (side ++ comb, some "Combinatorial demultiplexing (with {name1} and {name2}) cannot be combined with --untrimmed-output or --untrimmed-paired-output")
          else (side ++ comb, none)
        | none =>
          let untr := xopen_pair a.untrimmed_output a.untrimmed_paired_output
            .untrimmedFile .untrimmed2File
          let outs := xopen_pair a.output a.paired_output .outFile .out2File
          (side ++ untr ++ outs, none)

theorem mem_xopen_or_none {p : Option String} {t1 t : FileTag}
    (h : t ∈ xopen_or_none p t1) : t = t1 := by
  unfold xopen_or_none at h
  split at h <;> simp_all

theorem mem_xopen_pair {p1 p2 : Option String} {t1 t2 t : FileTag}
    (h : t ∈ xopen_pair p1 p2 t1 t2) : t = t1 ∨ t = t2 := by
  unfold xopen_pair at h
  rcases List.mem_append.mp h with h | h
  · exact Or.inl (mem_xopen_or_none h)
  · exact Or.inr (mem_xopen_or_none h)

/-- C10: when two or more of `--discard-trimmed`, `--discard-untrimmed`
and `--untrimmed-output` are in effect, `open_output_files` raises the
"only one of" `CommandLineError`, and every stream opened before that
point is a side-channel stream: no destination for trimmed reads (main,
demultiplex or combinatorial) has been opened. -/
theorem open_output_files_conflict (a : Args)
    (adapter_names adapter_names2 : List String)
    (h : a.discard_trimmed.toNat + a.discard_untrimmed.toNat +
      (a.untrimmed_output.isSome).toNat > 1) :
    (open_output_files a adapter_names adapter_names2).2 =
      some "Only one of the --discard-trimmed, --discard-untrimmed and --untrimmed-output options can be used at the same time." ∧
    ∀ t ∈ (open_output_files a adapter_names adapter_names2).1,
      t ∈ [FileTag.restFile, FileTag.infoFile, FileTag.wildcardFile,
        FileTag.tooShort, FileTag.tooShort2, FileTag.tooLong, FileTag.tooLong2] := by
  have hopen : open_output_files a adapter_names adapter_names2 =
      (xopen_or_none a.rest_file .restFile ++
        xopen_or_none a.info_file .infoFile ++
        xopen_or_none a.wildcard_file .wildcardFile ++
        (if a.minimum_length.isSome then
          xopen_pair a.too_short_output a.too_short_paired_output .tooShort .tooShort2
          else []) ++
        (if a.maximum_length.isSome then
          xopen_pair a.too_long_output a.too_long_paired_output .tooLong .tooLong2
          else []),
       some "Only one of the --discard-trimmed, --discard-untrimmed and --untrimmed-output options can be used at the same time.") := by
    rw [open_output_files]
    simp only [if_pos h]
  rw [hopen]
  refine ⟨rfl, ?_⟩
  intro t ht
  simp only [List.mem_append] at ht
  rcases ht with ((((h1 | h2) | h3) | h4) | h5)
  · rcases mem_xopen_or_none h1 with rfl
    simp
  · rcases mem_xopen_or_none h2 with rfl
    simp
  · rcases mem_xopen_or_none h3 with rfl
    simp
  · split at h4
    · rcases mem_xopen_pair h4 with rfl | rfl <;> simp
    · exact absurd h4 (by simp)
  · split at h5
    · rcases mem_xopen_pair h5 with rfl | rfl <;> simp
    · exact absurd h5 (by simp)

/-- Witness for C10: with `--discard-trimmed --discard-untrimmed` (and all
other options at their defaults) the hypothesis holds, the error is
raised, and the opened-stream trace is empty. -/
theorem open_output_files_conflict_witness :
    (open_output_files
      { defaultArgs with discard_trimmed := true, discard_untrimmed := true }
      [] []).2 =
      some "Only one of the --discard-trimmed, --discard-untrimmed and --untrimmed-output options can be used at the same time." ∧
    ∀ t ∈ (open_output_files
      { defaultArgs with discard_trimmed := true, discard_untrimmed := true }
      [] []).1,
      t ∈ [FileTag.restFile, FileTag.infoFile, FileTag.wildcardFile,
        FileTag.tooShort, FileTag.tooShort2, FileTag.tooLong, FileTag.tooLong2] :=
  open_output_files_conflict
    { defaultArgs with discard_trimmed := true, discard_untrimmed := true }
    [] [] (by decide)

/-- Outcome of a `main` invocation: the process exits with a status code
and a message on standard error, or the run finishes normally and reports. -/
inductive MainOutcome where
  | exitWith (code : Nat) (message : String)
  | finished
  deriving DecidableEq, Repr

/-- The exit status of an outcome, `none` for a normal finish. -/
def MainOutcome.code : MainOutcome → Option Nat
  | .exitWith c _ => some c
  | .finished => none

/-- Translation of `CutadaptArgumentParser.error`: after two fixed help
lines, exit with status 2 and the message
`"\n{prog}: error: {message}\n"` on standard error (prog is `cutadapt`). -/
def parser_error (message : String) : MainOutcome :=
  .exitWith 2 ("\n" ++ "cutadapt" ++ ": error: " ++ message ++ "\n")

/-- What happens inside `runner.run()`: normal completion, a keyboard
interrupt, a broken output pipe, or a file-format error from the reader. -/
inductive RunEvent where
  | success
  | keyboardInterrupt
  | brokenPipe
  | fileFormatError (msg : String)
  deriving DecidableEq, Repr

/-- Translation of `setup_input_files`. -/
def setup_input_files (inputs : List String) (paired interleaved : Bool) :
    Except String (String × Option String) :=
  if inputs.length = 0 then
    .error "You did not provide any input file names. Please give me something to do!"
  else if inputs.length > 2 then
    .error ("You provided " ++ toString inputs.length ++
      " input file names, but either one or two are expected. " ++
      "The file names were:\n - " ++
      String.intercalate "\n - " (inputs.map fun p => "'" ++ p ++ "'") ++
      "\nHint: If your path contains spaces, you need to enclose it in quotes")
  else if paired && !interleaved then
    if inputs.length = 1 then
      .error "You used an option that enabled paired-end mode (such as -p, -A, -G, -B, -U), but then you also need to provide two input files (you provided one) or use --interleaved."
    else .ok (inputs.headD "", some (inputs.getD 1 ""))
  else if inputs.length = 2 then
    .error "It appears you want to trim paired-end data because you provided two input files, but then you also need to provide two output files (with -o and -p) or use the --interleaved option."
  else .ok (inputs.headD "", none)

/-- Translation of the error dispatch of `main`: the early `parser.error`
calls (`--quiet` with `--report`, unrecognized arguments, negative
`--cores`), then the `try` block whose `CommandLineError` is routed to
`parser.error`, then the handlers around `runner.run()`. `construction`
stands for the result of the construction steps inside the `try` block
(`setup_input_files`, `check_arguments`, `adapters_from_args`,
`pipeline_from_parsed_args`, `open_output_files`, `setup_runner`). -/
def mainDispatch (a : Args) (leftover : List String)
    (construction : Except String Unit) (run : RunEvent) : MainOutcome :=
  if a.quiet && truthy a.report then
    parser_error "Options --quiet and --report cannot be used at the same time"
  else if !leftover.isEmpty then
    parser_error ("unrecognized arguments: " ++ String.intercalate " " leftover)
  else if a.cores < 0 then
    parser_error "Value for --cores cannot be negative"
  else
    match construction with
    | .error e => parser_error e
    | .ok _ =>
      match run with
      | .success => .finished
      | .keyboardInterrupt => .exitWith 130 "Interrupted"
      | .brokenPipe => .exitWith 1 ""
      | .fileFormatError m => .exitWith 1 ("cutadapt: error: " ++ m)

/-- One of the three pre-run `parser.error` branches of `main` fires. -/
def pre_run_error (a : Args) (leftover : List String) : Bool :=
  (a.quiet && truthy a.report) || !leftover.isEmpty || decide (a.cores < 0)

/-- A message that occupies a single line of standard error. -/
def isSingleLine (s : String) : Bool :=
  !(s.toList.contains '\n')

/-- The message carried by a construction error, empty on success. -/
def exceptMessage : Except String Unit → String
  | .error e => e
  | .ok _ => ""

/-- C2 (amended): every usage or construction-time error (a
`CommandLineError`, unrecognized arguments, a negative `--cores`)
terminates with exit status 2 and an error message on standard error
(single-line for most errors, though some `CommandLineError` messages span
several lines); a `KeyboardInterrupt` during the run terminates with exit
status 130, a `BrokenPipeError` with exit status 1. -/
theorem main_exit_codes :
    (∀ (a : Args) (leftover : List String) (e : String) (run : RunEvent),
      (mainDispatch a leftover (.error e) run).code = some 2) ∧
    (∀ (a : Args) (leftover : List String) (construction : Except String Unit)
      (run : RunEvent), leftover ≠ [] →
      (mainDispatch a leftover construction run).code = some 2) ∧
    (∀ (a : Args) (leftover : List String) (construction : Except String Unit)
      (run : RunEvent), a.cores < 0 →
      (mainDispatch a leftover construction run).code = some 2) ∧
    (∀ (a : Args) (leftover : List String), pre_run_error a leftover = false →
      mainDispatch a leftover (.ok ()) .keyboardInterrupt =
        .exitWith 130 "Interrupted") ∧
    (∀ (a : Args) (leftover : List String), pre_run_error a leftover = false →
      mainDispatch a leftover (.ok ()) .brokenPipe = .exitWith 1 "") := by
  refine ⟨?_, ?_, ?_, ?_, ?_⟩
  · intro a leftover e run
    unfold mainDispatch
    split_ifs <;> rfl
  · intro a leftover construction run hne
    unfold mainDispatch
    split_ifs with h1 h2 h3
    · rfl
    · rfl
    · rfl
    · rcases leftover with _ | ⟨x, xs⟩
      · exact absurd rfl hne
      · simp at h2
  · intro a leftover construction run hneg
    unfold mainDispatch
    split_ifs with h1 h2
    · rfl
    · rfl
    · rfl
  · intro a leftover hpre
    simp only [pre_run_error, Bool.or_eq_false_iff, decide_eq_false_iff_not] at hpre
    obtain ⟨⟨hq, hl⟩, hc⟩ := hpre
    unfold mainDispatch
    rw [if_neg (by simp [hq]), if_neg (by simp [hl]), if_neg hc]
  · intro a leftover hpre
    simp only [pre_run_error, Bool.or_eq_false_iff, decide_eq_false_iff_not] at hpre
    obtain ⟨⟨hq, hl⟩, hc⟩ := hpre
    unfold mainDispatch
    rw [if_neg (by simp [hq]), if_neg (by simp [hl]), if_neg hc]

/-- Witness for C2's amended theorem: with three input files the
construction error exits with status 2, and with defaults an interrupt
exits with 130 and a broken pipe with 1. -/
theorem main_exit_codes_witness :
    (mainDispatch defaultArgs []
      ((setup_input_files ["r1.fq", "r2.fq", "r3.fq"] false false).map
        fun _ => ()) .success).code = some 2 ∧
    mainDispatch defaultArgs [] (.ok ()) .keyboardInterrupt =
      .exitWith 130 "Interrupted" ∧
    mainDispatch defaultArgs [] (.ok ()) .brokenPipe = .exitWith 1 "" := by
  refine ⟨?_, ?_, ?_⟩
  · have h : (setup_input_files ["r1.fq", "r2.fq", "r3.fq"] false false).map
        (fun _ => ()) =
        Except.error (exceptMessage ((setup_input_files
          ["r1.fq", "r2.fq", "r3.fq"] false false).map fun _ => ())) := rfl
    rw [h]
    exact main_exit_codes.1 defaultArgs [] _ .success
  · exact main_exit_codes.2.2.2.1 defaultArgs [] rfl
  · exact main_exit_codes.2.2.2.2 defaultArgs [] rfl

/-- C2 counterexample: the `CommandLineError` raised by `setup_input_files`
for three input files exits with status 2 as claimed, but its message
lists the file names on separate lines, so the claim's "single-line
message on standard error" does not hold for every construction-time
error. -/
theorem main_error_message_multiline :
    (mainDispatch defaultArgs []
      ((setup_input_files ["r1.fq", "r2.fq", "r3.fq"] false false).map
        fun _ => ()) .success).code = some 2 ∧
    isSingleLine (exceptMessage
      ((setup_input_files ["r1.fq", "r2.fq", "r3.fq"] false false).map
        fun _ => ())) = false := by
  exact ⟨rfl, rfl⟩

/-- Scanner state for template variables: characters between a `{` and the
next `}` accumulate (reversed) into the state; a closed group is emitted. -/
def templateVarsAux : Option (List Char) → List Char → List String
  | _, [] => []
  | none, c :: rest =>
    if c = '{' then templateVarsAux (some []) rest
    else templateVarsAux none rest
  | some acc, c :: rest =>
    if c = '}' then String.mk acc.reverse :: templateVarsAux none rest
    else templateVarsAux (some (c :: acc)) rest

/-- The variables of a `--rename` template: the contents of each
brace-delimited group, in order; an unterminated `{` contributes nothing. -/
def templateVariables (s : String) : List String :=
  templateVarsAux none s.toList

/-- Modelled from the spec: the variable set `--rename` accepts for
single-end data, per the spec's template-variable list (the `Renamer`
class lives in `cutadapt.modifiers`, which is not part of this module). -/
def renamerVariables : List String :=
  ["id", "header", "comment", "adapter_name", "match_sequence",
   "cut_prefix", "cut_suffix", "rc"]

/-- Modelled from the spec: the paired variant additionally exposes the
same variables with `_1` and `_2` suffixes. -/
def pairedRenamerVariables : List String :=
  renamerVariables ++ (renamerVariables.map fun v => v ++ "_1") ++
    (renamerVariables.map fun v => v ++ "_2")

/-- The variable set the active renamer accepts. -/
def allowedVariables (paired : Bool) : List String :=
  if paired then pairedRenamerVariables else renamerVariables

/-- Modelled from the spec: constructing `Renamer`/`PairedEndRenamer`
raises `InvalidTemplate` when the template holds a variable outside the
supported set, and succeeds otherwise. -/
def renamer_new (paired : Bool) (template : String) : Except String Unit :=
  match (templateVariables template).find?
      (fun v => !(allowedVariables paired).contains v) with
  | some v => .error ("Invalid template variable: " ++ v)
  | none => .ok ()

/-- Translation of the `--rename` handling of `pipeline_from_parsed_args`
(source lines 697 to 708): reject `--rename` together with `-x`  or `-y`;
otherwise, for a truthy template other than `{header}`, construct the
renamer, converting `InvalidTemplate` into a `CommandLineError`. -/
def add_renamer_step (rename : Option String) (pfx sfx : String)
    (paired : Bool) : Except String Unit :=
  if truthy rename && (!pfx.isEmpty || !sfx.isEmpty) then
    .error "Option --rename cannot be combined with --prefix (-x) or --suffix (-y)"
  else if truthy rename && rename != some "{header}" then
    match renamer_new paired (rename.getD "") with
    | .error e => .error e
    | .ok _ => .ok ()
  else .ok ()

/-- An `Except` result that carries an error. -/
def isError {α : Type} : Except String α → Bool
  | .error _ => true
  | .ok _ => false

/-- C6: a `--rename` template containing a variable outside the supported
set makes pipeline construction fail with a `CommandLineError` (either the
converted `InvalidTemplate`, or, when `-x` or `-y` is also given, the
combination error raised even earlier), so an invalid template is always a
startup failure, before any read is processed. -/
theorem rename_invalid_template_errors (template : String) (pfx sfx : String)
    (paired : Bool) (v : String) (hv : v ∈ templateVariables template)
    (hbad : v ∉ allowedVariables paired) :
    isError (add_renamer_step (some template) pfx sfx paired) = true := by
  have htruthy : truthy (some template) = true := by
    rcases ht : template.toList with _ | ⟨c, cs⟩
    · exfalso
      have : templateVariables template = [] := by
        unfold templateVariables
        rw [ht]
        rfl
      rw [this] at hv
      exact absurd hv (List.not_mem_nil v)
    · have hne0 : template ≠ "" := by
        intro he
        rw [he] at ht
        exact List.noConfusion ht
      simp only [truthy, Bool.not_eq_true', Bool.eq_false_iff]
      exact fun hemp => hne0 ((String.isEmpty_iff template).mp hemp)
  unfold add_renamer_step
  split_ifs with h1 h2
  · rfl
  · have hfind : (templateVariables template).find?
        (fun w => !(allowedVariables paired).contains w) ≠ none := by
      intro hnone
      rw [List.find?_eq_none] at hnone
      have := hnone v hv
      simp only [Bool.not_eq_true', Bool.not_eq_false] at this
      exact hbad (by simpa using this)
    rcases hfound : (templateVariables template).find?
        (fun w => !(allowedVariables paired).contains w) with _ | w
    · exact absurd hfound hfind
    · simp only [renamer_new, Option.getD_some, hfound]
      rfl
  · exfalso
    apply h2
    have hne : template ≠ "{header}" := by
      intro he
      subst he
      have hvh : v = "header" := by
        have hth : templateVariables "{header}" = ["header"] := rfl
        rw [hth] at hv
        simpa using hv
      subst hvh
      apply hbad
      unfold allowedVariables pairedRenamerVariables renamerVariables
      cases paired <;> simp
    simp [htruthy, hne]

/-- Witness for C6: the template `{foo}` holds the unsupported variable
`foo`, and construction fails. -/
theorem rename_invalid_template_witness :
    isError (add_renamer_step (some "{foo}") "" "" false) = true :=
  rename_invalid_template_errors "{foo}" "" "" false "foo" (by decide) (by decide)

/-- Modelled from the spec: `PairedAdapterCutter` (in `cutadapt.modifiers`,
not part of this module) pairs R1 adapter `i` with R2 adapter `i` and
raises `PairedAdapterCutterError` when the two lists cannot be paired,
i.e. when their lengths differ — in particular when exactly one side's
list is empty. Adapters are represented by their names. -/
def pairedAdapterCutterInit (adapters adapters2 : List String) :
    Except String Unit :=
  if adapters.length ≠ adapters2.length then
    .error "Numbers of adapters given for R1 and R2 differ"
  else .ok ()

/-- Translation of `add_adapter_cutter`, restricted to whether construction
raises: the `--pair-adapters` branch rejects `--revcomp`, then converts a
`PairedAdapterCutterError` into a `CommandLineError` with the
`--pair-adapters: ` prefix; the plain branch rejects `--revcomp` for
paired data. (`AdapterCutter` construction itself is outside this module
and treated as succeeding.) -/
def add_adapter_cutter (adapters adapters2 : List String)
    (paired pair_adapters reverse_complement : Bool) : Except String Unit :=
  if pair_adapters then
    if reverse_complement then
      .error "Cannot use --revcomp with --pair-adapters"
    else
      match pairedAdapterCutterInit adapters adapters2 with
      | .error e => .error ("--pair-adapters: " ++ e)
      | .ok _ => .ok ()
  else if paired && reverse_complement then
    .error "--revcomp not implemented for paired-end reads"
  else .ok ()

/-- C7: with `--pair-adapters`, lists that cannot be paired
(different lengths, in particular an empty list on exactly one side) make
construction fail with a `CommandLineError`; and `--pair-adapters`
together with `--revcomp` is always rejected at construction. -/
theorem pair_adapters_rejections (adapters adapters2 : List String)
    (paired rc : Bool) :
    (adapters.length ≠ adapters2.length →
      isError (add_adapter_cutter adapters adapters2 paired true rc) = true) ∧
    isError (add_adapter_cutter adapters adapters2 paired true true) = true := by
  constructor
  · intro hlen
    unfold add_adapter_cutter
    rw [if_pos rfl]
    cases rc
    · rw [if_neg (by simp)]
      simp only [pairedAdapterCutterInit, if_pos hlen]
      rfl
    · rfl
  · unfold add_adapter_cutter
    rfl

/-- Witness for C7: one adapter on R1 and none on R2 cannot be paired and
construction fails; with `--revcomp` it fails as well. -/
theorem pair_adapters_rejections_witness :
    isError (add_adapter_cutter ["adapter1"] [] true true false) = true ∧
    isError (add_adapter_cutter ["adapter1"] [] true true true) = true :=
  ⟨(pair_adapters_rejections ["adapter1"] [] true false).1 (by decide),
   (pair_adapters_rejections ["adapter1"] [] true true).2⟩

/-- Whitespace as stripped by Python's `int()` constructor. -/
def isPySpace (c : Char) : Bool :=
  c = ' ' || c = '\t' || c = '\n' || c = '\r' || c = '\x0b' || c = '\x0c'

/-- Leading and trailing whitespace removed, as `int()` does. -/
def stripSpaces (l : List Char) : List Char :=
  ((l.dropWhile isPySpace).reverse.dropWhile isPySpace).reverse

/-- Digit-run scanner for `int()` literals: after the first digit, single
underscores are allowed between digits. The flag records whether the
previous character was an underscore. -/
def pyDigitsAux : Bool → List Char → Bool
  | prevU, [] => !prevU
  | prevU, c :: rest =>
    if c = '_' then !prevU && pyDigitsAux true rest
    else c.isDigit && pyDigitsAux false rest

/-- A non-empty digit run acceptable to `int()` after sign and space
stripping: a digit first, then digits with single interior underscores. -/
def pyDigits : List Char → Bool
  | [] => false
  | c :: rest => c.isDigit && pyDigitsAux false rest

/-- The numeric value of a digit run, skipping underscores. -/
def digitsValue : List Char → Nat → Nat
  | [], acc => acc
  | c :: rest, acc =>
    if c = '_' then digitsValue rest acc
    else digitsValue rest (acc * 10 + (c.toNat - 48))

/-- The sign-and-digits core of Python's `int()` on a stripped character
list: an optional `+` or `-` followed by an acceptable digit run. -/
def pyIntCore : List Char → Option Int
  | [] => none
  | c :: rest =>
    if c = '+' then
      (if pyDigits rest then some ((digitsValue rest 0 : Nat) : Int) else none)
    else if c = '-' then
      (if pyDigits rest then some (-((digitsValue rest 0 : Nat) : Int)) else none)
    else
      (if pyDigits (c :: rest) then
        some ((digitsValue (c :: rest) 0 : Nat) : Int) else none)

/-- Python's `int(s)` on the characters of `s`: `some` the parsed value, or
`none` for the `ValueError` raised on anything that is not an integer
literal in base 10. -/
def pyInt (l : List Char) : Option Int :=
  pyIntCore (stripSpaces l)

/-- Python's `s.split(",")` on the characters of `s`. -/
def splitComma : List Char → List (List Char)
  | [] => [[]]
  | c :: rest =>
    if c = ',' then [] :: splitComma rest
    else
      match splitComma rest with
      | [] => [[c]]
      | h :: t => (c :: h) :: t

/-- Inverse of `splitComma`: the parts joined back with commas. -/
def joinComma : List (List Char) → List Char
  | [] => []
  | [p] => p
  | p :: ps => p ++ ',' :: joinComma ps

/-- The conversion loop `[int(value) for value in s.split(",")]`: the
first value `int()` rejects makes the whole conversion fail. -/
def mapPyInt : List (List Char) → Option (List Int)
  | [] => some []
  | s :: rest =>
    match pyInt s with
    | none => none
    | some n =>
      match mapPyInt rest with
      | none => none
      | some ns => some (n :: ns)

/-- Translation of `parse_cutoffs` (the Python error messages interpolate
the `ValueError` text; only the fact that an error is raised matters
here): split on commas, convert every part with `int()`, then a single
value `n` becomes `(0, n)`, two values stay, anything else errors. -/
def parse_cutoffs (s : List Char) : Except String (Int × Int) :=
  match mapPyInt (splitComma s) with
  | none => .error "Quality cutoff value not recognized"
  | some [c] => .ok (0, c)
  | some [a, b] => .ok (a, b)
  | some _ => .error "Expected one value or two values separated by comma for the quality cutoff"

theorem mem_dropWhile_of_not {p : Char → Bool} {c : Char} :
    ∀ {l : List Char}, c ∈ l → p c = false → c ∈ l.dropWhile p := by
  intro l
  induction l with
  | nil =>
    intro h _
    exact absurd h (List.not_mem_nil c)
  | cons x xs ih =>
    intro hmem hpc
    rw [List.dropWhile_cons]
    by_cases hx : p x = true
    · rw [if_pos hx]
      rcases List.mem_cons.mp hmem with rfl | hmem2
      · rw [hpc] at hx
        exact Bool.noConfusion hx
      · exact ih hmem2 hpc
    · rw [if_neg hx]
      exact hmem

theorem mem_stripSpaces {c : Char} {l : List Char} (h : c ∈ l)
    (hc : isPySpace c = false) : c ∈ stripSpaces l := by
  unfold stripSpaces
  rw [List.mem_reverse]
  apply mem_dropWhile_of_not _ hc
  rw [List.mem_reverse]
  exact mem_dropWhile_of_not h hc

theorem pyDigitsAux_comma :
    ∀ (b : Bool) (l : List Char), ',' ∈ l → pyDigitsAux b l = false := by
  intro b l
  induction l generalizing b with
  | nil =>
    intro h
    exact absurd h (List.not_mem_nil _)
  | cons c rest ih =>
    intro hmem
    unfold pyDigitsAux
    by_cases hc : c = '_'
    · subst hc
      rw [if_pos rfl]
      have hr : ',' ∈ rest := by
        rcases List.mem_cons.mp hmem with h | h
        · exact absurd h (by decide)
        · exact h
      rw [ih true hr]
      simp
    · rw [if_neg hc]
      rcases List.mem_cons.mp hmem with h | h
      · rw [← h]
        simp
      · rw [ih false h]
        simp

theorem pyDigits_comma {l : List Char} (h : ',' ∈ l) : pyDigits l = false := by
  cases l with
  | nil => exact absurd h (List.not_mem_nil _)
  | cons c rest =>
    show (c.isDigit && pyDigitsAux false rest) = false
    rcases List.mem_cons.mp h with he | he
    · rw [← he]
      rfl
    · rw [pyDigitsAux_comma false rest he, Bool.and_false]

theorem pyIntCore_comma {l : List Char} (h : ',' ∈ l) : pyIntCore l = none := by
  cases l with
  | nil => rfl
  | cons c rest =>
    have hcr : ',' = c ∨ ',' ∈ rest := List.mem_cons.mp h
    show (if c = '+' then
        (if pyDigits rest then some ((digitsValue rest 0 : Nat) : Int) else none)
      else if c = '-' then
        (if pyDigits rest then some (-((digitsValue rest 0 : Nat) : Int)) else none)
      else
        (if pyDigits (c :: rest) then
          some ((digitsValue (c :: rest) 0 : Nat) : Int) else none)) = none
    by_cases h1 : c = '+'
    · have hr : ',' ∈ rest := by
        rcases hcr with he | he
        · rw [h1] at he
          exact absurd he (by decide)
        · exact he
      rw [if_pos h1, pyDigits_comma hr]
      rfl
    · rw [if_neg h1]
      by_cases h2 : c = '-'
      · have hr : ',' ∈ rest := by
          rcases hcr with he | he
          · rw [h2] at he
            exact absurd he (by decide)
          · exact he
        rw [if_pos h2, pyDigits_comma hr]
        rfl
      · rw [if_neg h2, pyDigits_comma h]
        rfl

theorem pyInt_comma {l : List Char} (h : ',' ∈ l) : pyInt l = none :=
  pyIntCore_comma (mem_stripSpaces h (by decide))

theorem pyInt_not_comma {l : List Char} {n : Int} (h : pyInt l = some n) :
    ',' ∉ l := by
  intro hc
  rw [pyInt_comma hc] at h
  exact Option.noConfusion h

theorem splitComma_ne_nil : ∀ l : List Char, splitComma l ≠ [] := by
  intro l
  induction l with
  | nil => simp [splitComma]
  | cons c rest ih =>
    simp only [splitComma]
    by_cases hc : c = ','
    · rw [if_pos hc]
      simp
    · rw [if_neg hc]
      rcases hsp : splitComma rest with _ | ⟨h, t⟩
      · simp
      · simp

theorem splitComma_no_comma : ∀ {l : List Char}, ',' ∉ l → splitComma l = [l] := by
  intro l
  induction l with
  | nil =>
    intro _
    rfl
  | cons c rest ih =>
    intro h
    have hc : ¬(c = ',') := by
      intro he
      apply h
      rw [he]
      exact List.mem_cons_self ',' rest
    have hrest : ',' ∉ rest := fun hr => h (List.mem_cons_of_mem _ hr)
    simp only [splitComma]
    rw [if_neg hc, ih hrest]

theorem splitComma_append :
    ∀ {u : List Char} (v : List Char), ',' ∉ u →
      splitComma (u ++ ',' :: v) = u :: splitComma v := by
  intro u
  induction u with
  | nil =>
    intro v _
    show splitComma (',' :: v) = [] :: splitComma v
    simp only [splitComma]
    simp
  | cons c cs ih =>
    intro v h
    have hc : ¬(c = ',') := by
      intro he
      apply h
      rw [he]
      exact List.mem_cons_self ',' cs
    have hcs : ',' ∉ cs := fun hr => h (List.mem_cons_of_mem _ hr)
    show splitComma (c :: (cs ++ ',' :: v)) = (c :: cs) :: splitComma v
    simp only [splitComma]
    rw [if_neg hc, ih v hcs]

theorem joinComma_splitComma : ∀ l : List Char, joinComma (splitComma l) = l := by
  intro l
  induction l with
  | nil => rfl
  | cons c rest ih =>
    simp only [splitComma]
    by_cases hc : c = ','
    · rw [if_pos hc]
      subst hc
      rcases hsp : splitComma rest with _ | ⟨q, qs⟩
      · exact absurd hsp (splitComma_ne_nil rest)
      · rw [hsp] at ih
        show [] ++ ',' :: joinComma (q :: qs) = ',' :: rest
        rw [List.nil_append, ih]
    · rw [if_neg hc]
      rcases hsp : splitComma rest with _ | ⟨q, qs⟩
      · exact absurd hsp (splitComma_ne_nil rest)
      · rw [hsp] at ih
        show joinComma ((c :: q) :: qs) = c :: rest
        cases qs with
        | nil =>
          show c :: q = c :: rest
          have ih2 : q = rest := ih
          rw [ih2]
        | cons q2 qs2 =>
          show (c :: q) ++ ',' :: joinComma (q2 :: qs2) = c :: rest
          rw [List.cons_append]
          have ih2 : q ++ ',' :: joinComma (q2 :: qs2) = rest := ih
          rw [ih2]

theorem mapPyInt_length :
    ∀ {xs : List (List Char)} {ns : List Int}, mapPyInt xs = some ns →
      ns.length = xs.length := by
  intro xs
  induction xs with
  | nil =>
    intro ns h
    injection h with h
    rw [← h]
    rfl
  | cons x rest ih =>
    intro ns h
    rcases hpx : pyInt x with _ | n
    · rw [show mapPyInt (x :: rest) = none from by simp [mapPyInt, hpx]] at h
      exact Option.noConfusion h
    · rcases hmr : mapPyInt rest with _ | ms
      · rw [show mapPyInt (x :: rest) = none from by
          simp [mapPyInt, hpx, hmr]] at h
        exact Option.noConfusion h
      · rw [show mapPyInt (x :: rest) = some (n :: ms) from by
          simp [mapPyInt, hpx, hmr]] at h
        injection h with h
        rw [← h]
        simp [ih hmr]

theorem parse_cutoffs_single (s : List Char) (n : Int) (h : pyInt s = some n) :
    parse_cutoffs s = .ok (0, n) := by
  have hnc : ',' ∉ s := pyInt_not_comma h
  unfold parse_cutoffs
  rw [splitComma_no_comma hnc,
    show mapPyInt [s] = some [n] from by simp [mapPyInt, h]]

theorem parse_cutoffs_pair (u v : List Char) (a b : Int)
    (ha : pyInt u = some a) (hb : pyInt v = some b) :
    parse_cutoffs (u ++ ',' :: v) = .ok (a, b) := by
  unfold parse_cutoffs
  rw [splitComma_append v (pyInt_not_comma ha),
    splitComma_no_comma (pyInt_not_comma hb),
    show mapPyInt [u, v] = some [a, b] from by simp [mapPyInt, ha, hb]]

/-- C9: a single integer string (as Python's `int()` accepts one) yields
the pair `(0, n)`; two comma-separated integer strings yield `(a, b)`;
and `parse_cutoffs` succeeds exactly on those inputs, raising a
`CommandLineError` for everything else. (That the result always has
exactly two components is enforced by the return type of the
translation.) -/
theorem parse_cutoffs_spec :
    (∀ (s : List Char) (n : Int), pyInt s = some n →
      parse_cutoffs s = .ok (0, n)) ∧
    (∀ (u v : List Char) (a b : Int), pyInt u = some a → pyInt v = some b →
      parse_cutoffs (u ++ ',' :: v) = .ok (a, b)) ∧
    (∀ s : List Char, (∃ p, parse_cutoffs s = .ok p) ↔
      ((∃ n, pyInt s = some n) ∨
        (∃ u v a b, s = u ++ ',' :: v ∧ pyInt u = some a ∧ pyInt v = some b))) := by
  refine ⟨parse_cutoffs_single, parse_cutoffs_pair, ?_⟩
  intro s
  constructor
  · rintro ⟨p, hp⟩
    unfold parse_cutoffs at hp
    rcases hm : mapPyInt (splitComma s) with _ | ns
    · rw [hm] at hp
      exact Except.noConfusion hp
    rw [hm] at hp
    rcases hsp : splitComma s with _ | ⟨u, us⟩
    · exact absurd hsp (splitComma_ne_nil s)
    rcases us with _ | ⟨v, vs⟩
    · have hs : s = u := by
        have hj := joinComma_splitComma s
        rw [hsp] at hj
        simpa [joinComma] using hj.symm
      rw [hsp] at hm
      rcases hpu : pyInt u with _ | n
      · rw [show mapPyInt [u] = none from by simp [mapPyInt, hpu]] at hm
        exact Option.noConfusion hm
      · exact Or.inl ⟨n, hs ▸ hpu⟩
    rcases vs with _ | ⟨w, ws⟩
    · have hs : s = u ++ ',' :: v := by
        have hj := joinComma_splitComma s
        rw [hsp] at hj
        simpa [joinComma] using hj.symm
      rw [hsp] at hm
      rcases hpu : pyInt u with _ | n
      · rw [show mapPyInt [u, v] = none from by simp [mapPyInt, hpu]] at hm
        exact Option.noConfusion hm
      rcases hpv : pyInt v with _ | m
      · rw [show mapPyInt [u, v] = none from by simp [mapPyInt, hpu, hpv]] at hm
        exact Option.noConfusion hm
      exact Or.inr ⟨u, v, n, m, hs, hpu, hpv⟩
    · exfalso
      rw [hsp] at hm
      have hlen := mapPyInt_length hm
      rcases ns with _ | ⟨n1, _ | ⟨n2, _ | ⟨n3, ns3⟩⟩⟩
      · exact List.noConfusion (List.eq_nil_of_length_eq_zero hlen.symm)
      · simp at hlen
      · simp at hlen
      · exact Except.noConfusion hp
  · rintro (⟨n, hn⟩ | ⟨u, v, a, b, rfl, ha, hb⟩)
    · exact ⟨(0, n), parse_cutoffs_single s n hn⟩
    · exact ⟨(a, b), parse_cutoffs_pair u v a b ha hb⟩

/-- Witness for C9: `"5"` parses to `(0, 5)` and `"6,7"` parses to
`(6, 7)`, by the theorem applied at those inputs. -/
theorem parse_cutoffs_spec_witness :
    parse_cutoffs ['5'] = .ok (0, 5) ∧
    parse_cutoffs ['6', ',', '7'] = .ok (6, 7) := by
  constructor
  · exact parse_cutoffs_spec.1 ['5'] 5 (by decide)
  · exact parse_cutoffs_spec.2.1 ['6'] ['7'] 6 7 (by decide) (by decide)

end Cutadapt
